import Mathlib

/-!
Shallow embedding of the `zh` command-line client (main.go): a single-purpose
ZenHub API client whose one operation moves an issue between pipelines.  The
embedding models the pure core of the program: Go string trimming and integer
parsing, the JSON serialization of the move request (including the escaping
performed by the Go standard library encoder), the status-code-to-error
mapping, the authenticating transport decorator, and the `MoveIssueCommand`
control flow up to the point where the HTTP request would be dispatched.
-/

namespace Zh

/-- The `DefaultBaseURL` constant from main.go. -/
def DefaultBaseURL : String := "https://api.zenhub.com"

/-- The `AuthenticationHeader` constant from main.go. -/
def AuthenticationHeader : String := "X-Authentication-Token"

/-- The `ZenHubTokenEnvVar` constant from main.go. -/
def ZenHubTokenEnvVar : String := "ZENHUB_TOKEN"

/-! ### Go standard library fragments used by main.go -/

/-- Characters treated as white space by Go `unicode.IsSpace` (the set used by
`strings.TrimSpace`): ASCII space characters plus the Unicode space
separators and next-line characters. -/
def goIsSpace (c : Char) : Bool :=
  c.toNat ∈ ([0x9, 0xA, 0xB, 0xC, 0xD, 0x20, 0x85, 0xA0, 0x1680,
      0x2000, 0x2001, 0x2002, 0x2003, 0x2004, 0x2005, 0x2006, 0x2007,
      0x2008, 0x2009, 0x200A, 0x2028, 0x2029, 0x202F, 0x205F, 0x3000] : List Nat)

/-- Go `strings.TrimSpace`: drop white-space characters from both ends. -/
def goTrimSpace (s : String) : String :=
  String.mk (((s.data.dropWhile goIsSpace).reverse.dropWhile goIsSpace).reverse)

/-- Smallest value of the 64-bit signed `int` type of Go on the platforms the
tool targets. -/
def goMinInt : Int := -9223372036854775808

/-- Largest value of the 64-bit signed `int` type. -/
def goMaxInt : Int := 9223372036854775807

/-- One step of the decimal accumulation loop of Go `strconv.ParseUint`:
a character outside the range of the characters `0` to `9` (code points 48
to 57) is a syntax error, modelled by an absorbing `none`. -/
def goParseStep (acc : Option Nat) (c : Char) : Option Nat :=
  match acc with
  | none => none
  | some n =>
    if 48 ≤ c.toNat ∧ c.toNat ≤ 57 then some (n * 10 + (c.toNat - 48)) else none

/-- Decimal digits folded into a natural number; `none` when a non-digit
occurs. -/
def goParseDigits (cs : List Char) : Option Nat :=
  cs.foldl goParseStep (some 0)

/-- The digits-and-range part of Go `strconv.ParseInt` after the sign has
been stripped: at least one character, all decimal digits, and the signed
value must lie within the 64-bit `int` range. -/
def goAtoiDigits (sign : Int) (cs : List Char) : Option Int :=
  if cs = [] then none
  else if goParseDigits cs = none then none
  else if goMinInt ≤ sign * (((goParseDigits cs).getD 0 : Nat) : Int) ∧
      sign * (((goParseDigits cs).getD 0 : Nat) : Int) ≤ goMaxInt then
    some (sign * (((goParseDigits cs).getD 0 : Nat) : Int))
  else none

/-- Go `strconv.Atoi`: an optional sign followed by at least one decimal
digit, rejecting values outside the 64-bit `int` range. -/
def goAtoi (s : String) : Option Int :=
  match s.data with
  | '-' :: rest => goAtoiDigits (-1) rest
  | '+' :: rest => goAtoiDigits 1 rest
  | rest => goAtoiDigits 1 rest

/-- Lower-case hexadecimal digit, as used by the `encoding/json` encoder. -/
def jsonHexDigit (n : Nat) : Char :=
  if n < 10 then Char.ofNat (48 + n) else Char.ofNat (87 + n)

/-- Escaping of a single character performed by the Go `encoding/json` string
encoder with its default HTML escaping: control characters, the quote, the
backslash and the HTML-significant characters are escaped; the Unicode line
and paragraph separators are escaped as well; everything else is emitted
verbatim. -/
def goJsonEscapeChar (c : Char) : List Char :=
  if c.toNat < 0x20 ∨ c = '"' ∨ c = '\\' ∨ c = '<' ∨ c = '>' ∨ c = '&' then
    if c = '"' then ['\\', '"']
    else if c = '\\' then ['\\', '\\']
    else if c = '\n' then ['\\', 'n']
    else if c = '\r' then ['\\', 'r']
    else if c = '\t' then ['\\', 't']
    else ['\\', 'u', '0', '0', jsonHexDigit (c.toNat / 16), jsonHexDigit (c.toNat % 16)]
  else if c.toNat = 0x2028 ∨ c.toNat = 0x2029 then
    ['\\', 'u', '2', '0', '2', jsonHexDigit (c.toNat % 16)]
  else [c]

/-- Go `encoding/json` quoting of a string value. -/
def goJsonQuote (s : String) : String :=
  "\"" ++ String.mk ((s.data.map goJsonEscapeChar).flatten) ++ "\""

/-! ### Data model of main.go -/

/-- The `MoveIssueRequest` struct: the request body of a request to move an
issue, with JSON field tags `pipeline_id` and `position`. -/
structure MoveIssueRequest where
  pipelineID : String
  position : String
deriving Repr, DecidableEq

/-- Go `json.Marshal` applied to a `MoveIssueRequest`: fields in declaration
order under their tag names, string values quoted by the standard encoder. -/
def marshalMoveIssueRequest (r : MoveIssueRequest) : String :=
  "\x7b\"pipeline_id\":" ++ goJsonQuote r.pipelineID
    ++ ",\"position\":" ++ goJsonQuote r.position ++ "\x7d"

/-- An HTTP request as far as this program constructs one: method, URL,
content type, header list (ordered key-value pairs) and body. -/
structure HttpRequest where
  method : String
  url : String
  contentType : String
  header : List (String × String)
  body : String
deriving Repr, DecidableEq

/-- The `AuthenticationTransport` struct: wraps a transport and holds the token
added to every outgoing request. -/
structure AuthenticationTransport where
  authenticationToken : String
deriving Repr, DecidableEq

/-- The request dispatched to the wrapped transport by
`AuthenticationTransport.RoundTrip`: `req.Header.Add` appends the
authentication header with the token value, everything else is passed
through unchanged. -/
def AuthenticationTransport.roundTripRequest (t : AuthenticationTransport)
    (req : HttpRequest) : HttpRequest :=
  { req with header := req.header ++ [(AuthenticationHeader, t.authenticationToken)] }

/-- The `GetZenHubToken` function: the trimmed value of the `ZENHUB_TOKEN`
environment variable, or an error when it is absent or blank after trimming
(Go `os.Getenv` yields the empty string for an absent variable). -/
def GetZenHubToken (tokenEnv : String) : Except String String :=
  if goTrimSpace tokenEnv ≠ "" then Except.ok (goTrimSpace tokenEnv)
  else Except.error ("expected environment variable " ++ ZenHubTokenEnvVar)

/-- The `ErrorFromStatusCode` function maps the HTTP status code of the response to an
error message, `none` meaning success. -/
def ErrorFromStatusCode (statusCode : Int) : Option String :=
  if statusCode = 401 then
    some ("authentication token is not valid. Check that " ++ ZenHubTokenEnvVar
      ++ " is set correctly")
  else if statusCode = 403 then
    some "ZenHub API request limit reached. Please try again later"
  else if statusCode = 404 then
    some "endpoint not found. This most likely is a bug in zh, please report it"
  else if statusCode = 200 then
    none
  else
    some ("unknown status code " ++ toString statusCode
      ++ ". This most likely is a bug in zh, please report it")

/-- The inputs consumed by `MoveIssueCommand` through the CLI context and
the process environment: the positional arguments, the raw value of the
token environment variable, and the resolved string and unsigned-integer
flag values. -/
structure CmdContext where
  args : List String
  tokenEnv : String
  workspaceID : String
  repositoryID : Nat
  baseURL : String
deriving Repr, DecidableEq

/-- Everything `MoveIssueCommand` has built once it is ready to POST: the
parsed issue ID, the pipeline ID, the `MoveIssueRequest` value, and the
HTTP request that the authenticated client would dispatch. -/
structure BuiltRequest where
  issueID : Int
  pipelineID : String
  moveReq : MoveIssueRequest
  request : HttpRequest
deriving Repr, DecidableEq

/-- The request-construction phase of `MoveIssueCommand`, faithful to the
order of checks in main.go: argument count, issue-ID parse, token lookup,
workspace check, repository check, then URL interpolation and JSON
serialization.  An `Except.error` means the command returns before any HTTP
request is attempted; an `Except.ok` carries the request that is sent. -/
def MoveIssueCommand.buildRequest (ctx : CmdContext) : Except String BuiltRequest :=
  if ctx.args.length ≠ 2 then
    Except.error ("expected exactly two argument, the issue ID and the pipeline ID. Received "
      ++ toString ctx.args.length)
  else
    match goAtoi (ctx.args.getD 0 "") with
    | none => Except.error ("expected issue ID to be an int, got " ++ ctx.args.getD 0 "")
    | some issueID =>
      match GetZenHubToken ctx.tokenEnv with
      | Except.error e => Except.error e
      | Except.ok token =>
        if ctx.workspaceID = "" then
          Except.error ("invalid workpace-id value of " ++ ctx.workspaceID)
        else if ctx.repositoryID = 0 then
          Except.error ("invalid repository-id value of " ++ toString ctx.repositoryID)
        else
          Except.ok
            { issueID := issueID
              pipelineID := ctx.args.getD 1 ""
              moveReq := { pipelineID := ctx.args.getD 1 "", position := "bottom" }
              request :=
                { method := "POST"
                  url := ctx.baseURL ++ "/p2/workspaces/" ++ ctx.workspaceID
                      ++ "/repositories/" ++ toString ctx.repositoryID
                      ++ "/issues/" ++ toString issueID ++ "/moves"
                  contentType := "application/json"
                  header := [(AuthenticationHeader, token)]
                  body := marshalMoveIssueRequest
                    { pipelineID := ctx.args.getD 1 "", position := "bottom" } } }

/-- The whole of `MoveIssueCommand` given the status code of the response:
build the request, then interpret the status code; on success the printed
confirmation line is returned. -/
def MoveIssueCommand.run (ctx : CmdContext) (statusCode : Int) : Except String String :=
  match MoveIssueCommand.buildRequest ctx with
  | Except.error e => Except.error e
  | Except.ok b =>
    match ErrorFromStatusCode statusCode with
    | some e => Except.error ("failed to move issue between pipelines: " ++ e)
    | none =>
      Except.ok ("Successfully moved issue " ++ toString b.issueID
        ++ " to pipelines " ++ b.pipelineID ++ "\n")

/-- The default-repository-ID computation in `main`: when the environment
variable is non-blank it must parse with `strconv.Atoi`, a failure being a
fatal termination (modelled as `none`); the parsed signed value is then
converted by `uint(repoID)`, which wraps modulo 2^64. -/
def mainDefaultRepositoryID (repoIDEnv : String) : Option Nat :=
  if goTrimSpace repoIDEnv ≠ "" then
    match goAtoi repoIDEnv with
    | none => none
    | some repoID => some ((repoID % (2 ^ 64 : Int)).toNat)
  else
    some 0

/-- Characters that the Go JSON string encoder copies to the output
verbatim: printable ASCII other than the quote, the backslash and the three
HTML-significant characters, and every non-ASCII scalar other than the line
and paragraph separators. -/
def jsonPlainChar (c : Char) : Prop :=
  (0x20 ≤ c.toNat ∧ c.toNat < 0x80 ∧ c ≠ '"' ∧ c ≠ '\\' ∧ c ≠ '<' ∧ c ≠ '>' ∧ c ≠ '&')
  ∨ (0x80 ≤ c.toNat ∧ c.toNat ≠ 0x2028 ∧ c.toNat ≠ 0x2029)

instance instDecidableJsonPlainChar : DecidablePred jsonPlainChar := fun c => by
  unfold jsonPlainChar
  exact inferInstance

/-- The value carried in the success case of `MoveIssueCommand.buildRequest`,
written out as a function of the context and the parsed issue ID. -/
def builtOf (ctx : CmdContext) (i : Int) : BuiltRequest :=
  { issueID := i
    pipelineID := ctx.args.getD 1 ""
    moveReq := { pipelineID := ctx.args.getD 1 "", position := "bottom" }
    request :=
      { method := "POST"
        url := ctx.baseURL ++ "/p2/workspaces/" ++ ctx.workspaceID
            ++ "/repositories/" ++ toString ctx.repositoryID
            ++ "/issues/" ++ toString i ++ "/moves"
        contentType := "application/json"
        header := [(AuthenticationHeader, goTrimSpace ctx.tokenEnv)]
        body := marshalMoveIssueRequest
          { pipelineID := ctx.args.getD 1 "", position := "bottom" } } }

/-! ### Supporting lemmas -/

theorem goJsonEscapeChar_plain (c : Char) (h : jsonPlainChar c) :
    goJsonEscapeChar c = [c] := by
  unfold goJsonEscapeChar
  rcases h with ⟨h1, h2, h3, h4, h5, h6, h7⟩ | ⟨h1, h2, h3⟩
  · have hn1 : ¬(c.toNat < 0x20 ∨ c = '"' ∨ c = '\\' ∨ c = '<' ∨ c = '>' ∨ c = '&') := by
      rintro (hc | hc | hc | hc | hc | hc)
      · omega
      · exact h3 hc
      · exact h4 hc
      · exact h5 hc
      · exact h6 hc
      · exact h7 hc
    have hn2 : ¬(c.toNat = 0x2028 ∨ c.toNat = 0x2029) := by
      rintro (hc | hc) <;> omega
    rw [if_neg hn1, if_neg hn2]
  · have hn1 : ¬(c.toNat < 0x20 ∨ c = '"' ∨ c = '\\' ∨ c = '<' ∨ c = '>' ∨ c = '&') := by
      rintro (hc | rfl | rfl | rfl | rfl | rfl)
      · omega
      · exact absurd h1 (by decide)
      · exact absurd h1 (by decide)
      · exact absurd h1 (by decide)
      · exact absurd h1 (by decide)
      · exact absurd h1 (by decide)
    have hn2 : ¬(c.toNat = 0x2028 ∨ c.toNat = 0x2029) := by
      rintro (hc | hc)
      · exact h2 hc
      · exact h3 hc
    rw [if_neg hn1, if_neg hn2]

theorem jsonEscape_eq_of_plain (l : List Char) (h : ∀ c ∈ l, jsonPlainChar c) :
    (l.map goJsonEscapeChar).flatten = l := by
  induction l with
  | nil => rfl
  | cons c cs ih =>
    simp only [List.map_cons, List.flatten_cons]
    rw [goJsonEscapeChar_plain c (h c (List.mem_cons_self c cs)),
      ih (fun d hd => h d (List.mem_cons_of_mem c hd))]
    rfl

theorem goJsonQuote_plain (s : String) (h : ∀ c ∈ s.data, jsonPlainChar c) :
    goJsonQuote s = "\"" ++ s ++ "\"" := by
  unfold goJsonQuote
  rw [jsonEscape_eq_of_plain s.data h]

theorem marshalMoveIssueRequest_plain (pid : String)
    (h : ∀ c ∈ pid.data, jsonPlainChar c) :
    marshalMoveIssueRequest { pipelineID := pid, position := "bottom" }
      = "\x7b\"pipeline_id\":\"" ++ pid ++ "\",\"position\":\"bottom\"\x7d" := by
  unfold marshalMoveIssueRequest
  rw [goJsonQuote_plain pid h]
  rw [show goJsonQuote "bottom" = "\"bottom\"" from rfl]
  rw [show ("\x7b\"pipeline_id\":\"" : String) = "\x7b\"pipeline_id\":" ++ "\"" from rfl]
  rw [show ("\",\"position\":\"bottom\"\x7d" : String)
      = "\"" ++ (",\"position\":" ++ ("\"bottom\"" ++ "\x7d")) from rfl]
  simp only [String.append_assoc]

theorem getZenHubToken_ok (t : String) (h : goTrimSpace t ≠ "") :
    GetZenHubToken t = Except.ok (goTrimSpace t) := by
  unfold GetZenHubToken
  rw [if_pos h]

theorem getZenHubToken_blank (t : String) (h : goTrimSpace t = "") :
    GetZenHubToken t
      = Except.error ("expected environment variable " ++ ZenHubTokenEnvVar) := by
  unfold GetZenHubToken
  rw [if_neg (fun hc => hc h)]

theorem foldl_goParseStep_none (cs : List Char) :
    List.foldl goParseStep none cs = none := by
  induction cs with
  | nil => rfl
  | cons c rest ih =>
    rw [List.foldl_cons]
    exact ih

theorem goAtoiDigits_range (sign : Int) (cs : List Char) (n : Int)
    (h : goAtoiDigits sign cs = some n) : goMinInt ≤ n ∧ n ≤ goMaxInt := by
  unfold goAtoiDigits at h
  by_cases h0 : cs = []
  · rw [if_pos h0] at h; cases h
  · rw [if_neg h0] at h
    by_cases h1 : goParseDigits cs = none
    · rw [if_pos h1] at h; cases h
    · rw [if_neg h1] at h
      by_cases h2 : goMinInt ≤ sign * (((goParseDigits cs).getD 0 : Nat) : Int) ∧
          sign * (((goParseDigits cs).getD 0 : Nat) : Int) ≤ goMaxInt
      · rw [if_pos h2] at h
        injection h with hn
        rw [← hn]
        exact h2
      · rw [if_neg h2] at h; cases h

theorem goAtoiDigits_all_space (sign : Int) (cs : List Char)
    (h : ∀ c ∈ cs, goIsSpace c) : goAtoiDigits sign cs = none := by
  cases cs with
  | nil => rfl
  | cons c rest =>
    have hc := h c (List.mem_cons_self c rest)
    have hcd : ¬(48 ≤ c.toNat ∧ c.toNat ≤ 57) := by
      unfold goIsSpace at hc
      have hmem := of_decide_eq_true hc
      simp only [List.mem_cons, List.not_mem_nil, or_false] at hmem
      omega
    have hp : goParseDigits (c :: rest) = none := by
      unfold goParseDigits
      rw [List.foldl_cons]
      rw [show goParseStep (some 0) c = none from by
        show (if 48 ≤ c.toNat ∧ c.toNat ≤ 57 then some (0 * 10 + (c.toNat - 48)) else none)
          = none
        rw [if_neg hcd]]
      exact foldl_goParseStep_none rest
    unfold goAtoiDigits
    rw [if_neg (List.cons_ne_nil c rest), if_pos hp]

theorem goAtoi_range (s : String) (n : Int) (h : goAtoi s = some n) :
    goMinInt ≤ n ∧ n ≤ goMaxInt := by
  unfold goAtoi at h
  split at h
  all_goals exact goAtoiDigits_range _ _ _ h

theorem goTrimSpace_empty_all_space (s : String) (h : goTrimSpace s = "") :
    ∀ c ∈ s.data, goIsSpace c := by
  have hdata : ((s.data.dropWhile goIsSpace).reverse.dropWhile goIsSpace).reverse
      = ([] : List Char) := congrArg String.data h
  have h1 : (s.data.dropWhile goIsSpace).reverse.dropWhile goIsSpace = [] := by
    rwa [List.reverse_eq_nil_iff] at hdata
  have h2 : ∀ c ∈ (s.data.dropWhile goIsSpace).reverse, goIsSpace c :=
    List.dropWhile_eq_nil_iff.mp h1
  have h3 : ∀ c ∈ s.data.dropWhile goIsSpace, goIsSpace c :=
    fun c hc => h2 c (List.mem_reverse.mpr hc)
  intro c hc
  rw [← List.takeWhile_append_dropWhile (p := goIsSpace) (l := s.data)] at hc
  rcases List.mem_append.mp hc with h4 | h4
  · exact List.mem_takeWhile_imp h4
  · exact h3 c h4

theorem goAtoi_some_trim_ne (s : String) (n : Int) (h : goAtoi s = some n) :
    goTrimSpace s ≠ "" := by
  intro habs
  have hall := goTrimSpace_empty_all_space s habs
  unfold goAtoi at h
  split at h
  next rest heq =>
    have hsp := hall '-' (by rw [heq]; exact List.mem_cons_self _ _)
    exact absurd hsp (by decide)
  next rest heq =>
    have hsp := hall '+' (by rw [heq]; exact List.mem_cons_self _ _)
    exact absurd hsp (by decide)
  next =>
    rw [goAtoiDigits_all_space 1 s.data hall] at h
    cases h

theorem buildRequest_unfold (ctx : CmdContext) (i : Int)
    (hlen : ctx.args.length = 2)
    (hi : goAtoi (ctx.args.getD 0 "") = some i)
    (htok : goTrimSpace ctx.tokenEnv ≠ "") :
    MoveIssueCommand.buildRequest ctx =
      (if ctx.workspaceID = "" then
        Except.error ("invalid workpace-id value of " ++ ctx.workspaceID)
      else if ctx.repositoryID = 0 then
        Except.error ("invalid repository-id value of " ++ toString ctx.repositoryID)
      else
        Except.ok (builtOf ctx i)) := by
  unfold MoveIssueCommand.buildRequest
  rw [if_neg (fun hc => hc hlen)]
  cases heq : goAtoi (ctx.args.getD 0 "") with
  | none => rw [heq] at hi; cases hi
  | some n =>
    rw [heq] at hi
    injection hi with hn
    subst hn
    cases heq2 : GetZenHubToken ctx.tokenEnv with
    | error e => rw [getZenHubToken_ok _ htok] at heq2; cases heq2
    | ok token =>
      rw [getZenHubToken_ok _ htok] at heq2
      injection heq2 with ht2
      subst ht2
      rfl

theorem buildRequest_ok (ctx : CmdContext) (i : Int)
    (hlen : ctx.args.length = 2)
    (hi : goAtoi (ctx.args.getD 0 "") = some i)
    (htok : goTrimSpace ctx.tokenEnv ≠ "")
    (hws : ctx.workspaceID ≠ "")
    (hrepo : ctx.repositoryID ≠ 0) :
    MoveIssueCommand.buildRequest ctx = Except.ok (builtOf ctx i) := by
  rw [buildRequest_unfold ctx i hlen hi htok, if_neg hws, if_neg hrepo]

theorem buildRequest_cases (ctx : CmdContext) :
    (∃ e, MoveIssueCommand.buildRequest ctx = Except.error e) ∨
    (∃ i, MoveIssueCommand.buildRequest ctx = Except.ok (builtOf ctx i) ∧
      ctx.args.length = 2 ∧ goAtoi (ctx.args.getD 0 "") = some i ∧
      goTrimSpace ctx.tokenEnv ≠ "" ∧ ctx.workspaceID ≠ "" ∧ ctx.repositoryID ≠ 0) := by
  by_cases hlen : ctx.args.length = 2
  · cases hg : goAtoi (ctx.args.getD 0 "") with
    | none =>
      left
      refine ⟨"expected issue ID to be an int, got " ++ ctx.args.getD 0 "", ?_⟩
      unfold MoveIssueCommand.buildRequest
      rw [if_neg (fun hc => hc hlen), hg]
    | some i =>
      by_cases htok : goTrimSpace ctx.tokenEnv = ""
      · left
        refine ⟨"expected environment variable " ++ ZenHubTokenEnvVar, ?_⟩
        unfold MoveIssueCommand.buildRequest
        rw [if_neg (fun hc => hc hlen), hg, getZenHubToken_blank _ htok]
      · have hU := buildRequest_unfold ctx i hlen hg htok
        by_cases hws : ctx.workspaceID = ""
        · exact Or.inl ⟨_, by rw [hU, if_pos hws]⟩
        · by_cases hrepo : ctx.repositoryID = 0
          · exact Or.inl ⟨_, by rw [hU, if_neg hws, if_pos hrepo]⟩
          · exact Or.inr ⟨i, by rw [hU, if_neg hws, if_neg hrepo], hlen, rfl, htok, hws, hrepo⟩
  · left
    refine ⟨"expected exactly two argument, the issue ID and the pipeline ID. Received "
      ++ toString ctx.args.length, ?_⟩
    unfold MoveIssueCommand.buildRequest
    rw [if_pos hlen]

/-! ### Claims -/

/-- C1 (counterexample): the body is not byte-for-byte the documented template
for every pipeline ID.  With pipelineID `<p>` — and an otherwise fully valid
configuration — the Go JSON encoder HTML-escapes the angle brackets, so the
body produced differs from the literal interpolation of the template. -/
theorem moveIssue_body_escaping_counterexample :
    (MoveIssueCommand.buildRequest ⟨["7", "<p>"], "abc", "ws1", 42, DefaultBaseURL⟩).map
        (fun b => b.request.body)
      = Except.ok "\x7b\"pipeline_id\":\"\\u003cp\\u003e\",\"position\":\"bottom\"\x7d" ∧
    ("\x7b\"pipeline_id\":\"\\u003cp\\u003e\",\"position\":\"bottom\"\x7d" : String)
      ≠ "\x7b\"pipeline_id\":\"<p>\",\"position\":\"bottom\"\x7d" :=
  ⟨rfl, by decide⟩

/-- C1 (amended): for every valid configuration the URL is byte-for-byte
`baseURL/p2/workspaces/workspaceID/repositories/repositoryID/issues/issueID/moves`,
and the body is `pipeline_id` and `position` fields in that order with the
pipeline-ID value quoted by the Go JSON encoder; whenever the pipeline ID
consists only of characters the encoder leaves verbatim, the body is
byte-for-byte the documented template with the pipeline ID interpolated. -/
theorem moveIssue_url_and_body_template (ctx : CmdContext) (i : Int)
    (hlen : ctx.args.length = 2)
    (hi : goAtoi (ctx.args.getD 0 "") = some i)
    (htok : goTrimSpace ctx.tokenEnv ≠ "")
    (hws : ctx.workspaceID ≠ "")
    (hrepo : ctx.repositoryID ≠ 0) :
    (MoveIssueCommand.buildRequest ctx).map (fun b => b.request.url)
      = Except.ok
          (ctx.baseURL ++ "/p2/workspaces/" ++ ctx.workspaceID
            ++ "/repositories/" ++ toString ctx.repositoryID
            ++ "/issues/" ++ toString i ++ "/moves") ∧
    (MoveIssueCommand.buildRequest ctx).map (fun b => b.request.body)
      = Except.ok ("\x7b\"pipeline_id\":" ++ goJsonQuote (ctx.args.getD 1 "")
          ++ ",\"position\":\"bottom\"\x7d") ∧
    ((∀ c ∈ (ctx.args.getD 1 "").data, jsonPlainChar c) →
      (MoveIssueCommand.buildRequest ctx).map (fun b => b.request.body)
        = Except.ok ("\x7b\"pipeline_id\":\"" ++ ctx.args.getD 1 ""
            ++ "\",\"position\":\"bottom\"\x7d")) := by
  rw [buildRequest_ok ctx i hlen hi htok hws hrepo]
  refine ⟨rfl, ?_, fun hplain => ?_⟩
  · simp only [Except.map, builtOf]
    unfold marshalMoveIssueRequest
    simp only [String.append_assoc]
    rw [show goJsonQuote "bottom" = "\"bottom\"" from rfl]
    rw [show ((",\"position\":" : String) ++ ("\"bottom\"" ++ "\x7d"))
        = ",\"position\":\"bottom\"\x7d" from rfl]
  · simp only [Except.map, builtOf]
    rw [marshalMoveIssueRequest_plain _ hplain]

/-- Witness for C1 (amended) at the end-to-end scenario of the spec. -/
theorem moveIssue_url_and_body_template_witness :
    (MoveIssueCommand.buildRequest ⟨["7", "p9"], "abc", "ws1", 42, DefaultBaseURL⟩).map
        (fun b => b.request.url)
      = Except.ok
          (DefaultBaseURL ++ "/p2/workspaces/" ++ "ws1"
            ++ "/repositories/" ++ toString (42 : Nat)
            ++ "/issues/" ++ toString (7 : Int) ++ "/moves") ∧
    (MoveIssueCommand.buildRequest ⟨["7", "p9"], "abc", "ws1", 42, DefaultBaseURL⟩).map
        (fun b => b.request.body)
      = Except.ok ("\x7b\"pipeline_id\":" ++ goJsonQuote "p9"
          ++ ",\"position\":\"bottom\"\x7d") ∧
    (MoveIssueCommand.buildRequest ⟨["7", "p9"], "abc", "ws1", 42, DefaultBaseURL⟩).map
        (fun b => b.request.body)
      = Except.ok ("\x7b\"pipeline_id\":\"" ++ "p9" ++ "\",\"position\":\"bottom\"\x7d") := by
  have h := moveIssue_url_and_body_template ⟨["7", "p9"], "abc", "ws1", 42, DefaultBaseURL⟩ 7
    (by decide) (by decide) (by decide) (by decide) (by decide)
  exact ⟨h.1, h.2.1, h.2.2 (by decide)⟩

/-- C2: the status-to-error mapping: 200 is success, 401 the authentication
message, 403 the rate-limit message, 404 the not-found message, and every
other code an unknown-status message containing that exact numeric code. -/
theorem errorFromStatusCode_mapping (c : Int) :
    ErrorFromStatusCode 200 = none ∧
    ErrorFromStatusCode 401
      = some ("authentication token is not valid. Check that " ++ ZenHubTokenEnvVar
          ++ " is set correctly") ∧
    ErrorFromStatusCode 403
      = some "ZenHub API request limit reached. Please try again later" ∧
    ErrorFromStatusCode 404
      = some "endpoint not found. This most likely is a bug in zh, please report it" ∧
    (c ≠ 200 → c ≠ 401 → c ≠ 403 → c ≠ 404 →
      ErrorFromStatusCode c
        = some ("unknown status code " ++ toString c
            ++ ". This most likely is a bug in zh, please report it")) := by
  refine ⟨rfl, rfl, rfl, rfl, fun h200 h401 h403 h404 => ?_⟩
  unfold ErrorFromStatusCode
  rw [if_neg h401, if_neg h403, if_neg h404, if_neg h200]

/-- Witness for C2 at status code 500. -/
theorem errorFromStatusCode_mapping_witness :
    ErrorFromStatusCode 200 = none ∧
    ErrorFromStatusCode 500
      = some ("unknown status code " ++ toString (500 : Int)
          ++ ". This most likely is a bug in zh, please report it") :=
  ⟨(errorFromStatusCode_mapping 500).1,
    (errorFromStatusCode_mapping 500).2.2.2.2 (by decide) (by decide) (by decide) (by decide)⟩

/-- C3: the authenticated transport dispatches to the wrapped transport a
request identical to its input except that the authentication header with
the configured token value has been added: method, URL, content type and
body are unchanged, and the header list is the original one extended by
exactly the authentication-header entry. -/
theorem authenticationTransport_roundTrip_frame (t : AuthenticationTransport)
    (req : HttpRequest) :
    (t.roundTripRequest req).method = req.method ∧
    (t.roundTripRequest req).url = req.url ∧
    (t.roundTripRequest req).contentType = req.contentType ∧
    (t.roundTripRequest req).body = req.body ∧
    (t.roundTripRequest req).header
      = req.header ++ [(AuthenticationHeader, t.authenticationToken)] ∧
    (AuthenticationHeader, t.authenticationToken) ∈ (t.roundTripRequest req).header := by
  refine ⟨rfl, rfl, rfl, rfl, rfl, ?_⟩
  simp [AuthenticationTransport.roundTripRequest]

/-- C4: when the token environment variable is absent or blank after
trimming, `MoveIssueCommand` returns an error before any HTTP request is
attempted; when the positional arguments are well formed the error is
exactly the missing-credential message. -/
theorem moveIssue_blank_token_fails (ctx : CmdContext)
    (h : goTrimSpace ctx.tokenEnv = "") :
    (∃ e, MoveIssueCommand.buildRequest ctx = Except.error e) ∧
    (ctx.args.length = 2 → ∀ i, goAtoi (ctx.args.getD 0 "") = some i →
      MoveIssueCommand.buildRequest ctx
        = Except.error ("expected environment variable " ++ ZenHubTokenEnvVar)) := by
  constructor
  · rcases buildRequest_cases ctx with he | ⟨i, _, _, _, htok, _⟩
    · exact he
    · exact absurd h htok
  · intro hlen i hi
    unfold MoveIssueCommand.buildRequest
    rw [if_neg (fun hc => hc hlen), hi, getZenHubToken_blank _ h]

/-- Witness for C4: a whitespace-only token value. -/
theorem moveIssue_blank_token_fails_witness :
    (∃ e, MoveIssueCommand.buildRequest ⟨["7", "p9"], "   ", "ws1", 42, DefaultBaseURL⟩
        = Except.error e) ∧
    MoveIssueCommand.buildRequest ⟨["7", "p9"], "   ", "ws1", 42, DefaultBaseURL⟩
      = Except.error ("expected environment variable " ++ ZenHubTokenEnvVar) := by
  have h := moveIssue_blank_token_fails ⟨["7", "p9"], "   ", "ws1", 42, DefaultBaseURL⟩
    (by decide)
  exact ⟨h.1, h.2 (by decide) 7 (by decide)⟩

/-- C5: when the positional-argument count is not exactly two, or the first
positional argument does not parse as an integer, `MoveIssueCommand` returns
the corresponding argument error before any HTTP request is attempted. -/
theorem moveIssue_bad_args_fails (ctx : CmdContext) :
    (ctx.args.length ≠ 2 →
      MoveIssueCommand.buildRequest ctx
        = Except.error
            ("expected exactly two argument, the issue ID and the pipeline ID. Received "
              ++ toString ctx.args.length)) ∧
    (ctx.args.length = 2 → goAtoi (ctx.args.getD 0 "") = none →
      MoveIssueCommand.buildRequest ctx
        = Except.error ("expected issue ID to be an int, got " ++ ctx.args.getD 0 "")) := by
  constructor
  · intro h
    unfold MoveIssueCommand.buildRequest
    rw [if_pos h]
  · intro h hn
    unfold MoveIssueCommand.buildRequest
    rw [if_neg (fun hc => hc h), hn]

/-- Witness for C5: one argument only, and a non-numeric first argument. -/
theorem moveIssue_bad_args_fails_witness :
    MoveIssueCommand.buildRequest ⟨["7"], "abc", "ws1", 42, DefaultBaseURL⟩
      = Except.error
          ("expected exactly two argument, the issue ID and the pipeline ID. Received "
            ++ toString (["7"] : List String).length) ∧
    MoveIssueCommand.buildRequest ⟨["seven", "p9"], "abc", "ws1", 42, DefaultBaseURL⟩
      = Except.error ("expected issue ID to be an int, got "
          ++ (["seven", "p9"] : List String).getD 0 "") :=
  ⟨(moveIssue_bad_args_fails ⟨["7"], "abc", "ws1", 42, DefaultBaseURL⟩).1 (by decide),
    (moveIssue_bad_args_fails ⟨["seven", "p9"], "abc", "ws1", 42, DefaultBaseURL⟩).2
      (by decide) (by decide)⟩

/-- C6: when the resolved repository ID is zero, `MoveIssueCommand` returns
an error before any HTTP request is attempted; once the earlier checks pass
the error is exactly the invalid-repository message. -/
theorem moveIssue_zero_repository_fails (ctx : CmdContext)
    (h : ctx.repositoryID = 0) :
    (∃ e, MoveIssueCommand.buildRequest ctx = Except.error e) ∧
    (∀ i, ctx.args.length = 2 → goAtoi (ctx.args.getD 0 "") = some i →
      goTrimSpace ctx.tokenEnv ≠ "" → ctx.workspaceID ≠ "" →
      MoveIssueCommand.buildRequest ctx
        = Except.error ("invalid repository-id value of " ++ toString ctx.repositoryID)) := by
  constructor
  · rcases buildRequest_cases ctx with he | ⟨i, _, _, _, _, _, hrepo⟩
    · exact he
    · exact absurd h hrepo
  · intro i hlen hi htok hws
    rw [buildRequest_unfold ctx i hlen hi htok, if_neg hws, if_pos h]

/-- Witness for C6 at repository ID zero. -/
theorem moveIssue_zero_repository_fails_witness :
    (∃ e, MoveIssueCommand.buildRequest ⟨["7", "p9"], "abc", "ws1", 0, DefaultBaseURL⟩
        = Except.error e) ∧
    MoveIssueCommand.buildRequest ⟨["7", "p9"], "abc", "ws1", 0, DefaultBaseURL⟩
      = Except.error ("invalid repository-id value of " ++ toString (0 : Nat)) := by
  have h := moveIssue_zero_repository_fails ⟨["7", "p9"], "abc", "ws1", 0, DefaultBaseURL⟩ rfl
  exact ⟨h.1, h.2 7 (by decide) (by decide) (by decide) (by decide)⟩

/-- C7 (counterexample): a workspace ID that is empty after trimming but not
the empty string passes the check in main.go: with workspace ID a single
space, and everything else valid, a request is built (and would be sent),
with the space interpolated into the URL. -/
theorem moveIssue_whitespace_workspace_counterexample :
    goTrimSpace " " = "" ∧
    (MoveIssueCommand.buildRequest ⟨["7", "p9"], "abc", " ", 42, DefaultBaseURL⟩).map
        (fun b => b.request.url)
      = Except.ok "https://api.zenhub.com/p2/workspaces/ /repositories/42/issues/7/moves" :=
  ⟨by decide, rfl⟩

/-- C7 (amended): only when the resolved workspace ID is exactly the empty
string (no trimming is applied) does `MoveIssueCommand` fail with the
invalid-workspace configuration error, before any HTTP request is
attempted. -/
theorem moveIssue_empty_workspace_fails (ctx : CmdContext)
    (h : ctx.workspaceID = "") :
    (∃ e, MoveIssueCommand.buildRequest ctx = Except.error e) ∧
    (∀ i, ctx.args.length = 2 → goAtoi (ctx.args.getD 0 "") = some i →
      goTrimSpace ctx.tokenEnv ≠ "" →
      MoveIssueCommand.buildRequest ctx
        = Except.error ("invalid workpace-id value of " ++ ctx.workspaceID)) := by
  constructor
  · rcases buildRequest_cases ctx with he | ⟨i, _, _, _, _, hws, _⟩
    · exact he
    · exact absurd h hws
  · intro i hlen hi htok
    rw [buildRequest_unfold ctx i hlen hi htok, if_pos h]

/-- Witness for C7 (amended) at the empty workspace ID. -/
theorem moveIssue_empty_workspace_fails_witness :
    (∃ e, MoveIssueCommand.buildRequest ⟨["7", "p9"], "abc", "", 42, DefaultBaseURL⟩
        = Except.error e) ∧
    MoveIssueCommand.buildRequest ⟨["7", "p9"], "abc", "", 42, DefaultBaseURL⟩
      = Except.error ("invalid workpace-id value of " ++ "") := by
  have h := moveIssue_empty_workspace_fails ⟨["7", "p9"], "abc", "", 42, DefaultBaseURL⟩ rfl
  exact ⟨h.1, h.2 7 (by decide) (by decide) (by decide)⟩

/-- C8: on a 200 response the operation returns no error and yields the
confirmation message naming the issue ID and the destination pipeline ID. -/
theorem moveIssue_success_message (ctx : CmdContext) (i : Int)
    (hlen : ctx.args.length = 2)
    (hi : goAtoi (ctx.args.getD 0 "") = some i)
    (htok : goTrimSpace ctx.tokenEnv ≠ "")
    (hws : ctx.workspaceID ≠ "")
    (hrepo : ctx.repositoryID ≠ 0) :
    MoveIssueCommand.run ctx 200
      = Except.ok ("Successfully moved issue " ++ toString i ++ " to pipelines "
          ++ ctx.args.getD 1 "" ++ "\n") := by
  unfold MoveIssueCommand.run
  rw [buildRequest_ok ctx i hlen hi htok hws hrepo]
  rfl

/-- Witness for C8 at the end-to-end scenario of the spec. -/
theorem moveIssue_success_message_witness :
    MoveIssueCommand.run ⟨["7", "p9"], "abc", "ws1", 42, DefaultBaseURL⟩ 200
      = Except.ok ("Successfully moved issue " ++ toString (7 : Int) ++ " to pipelines "
          ++ "p9" ++ "\n") :=
  moveIssue_success_message ⟨["7", "p9"], "abc", "ws1", 42, DefaultBaseURL⟩ 7
    (by decide) (by decide) (by decide) (by decide) (by decide)

/-- C9: every request the program ever constructs carries a move request
whose position field is the literal `bottom`, and its serialized body is the
serialization of exactly that move request. -/
theorem moveIssue_position_always_bottom (ctx : CmdContext) (b : BuiltRequest)
    (h : MoveIssueCommand.buildRequest ctx = Except.ok b) :
    b.moveReq.position = "bottom" ∧
    b.request.body = marshalMoveIssueRequest b.moveReq := by
  rcases buildRequest_cases ctx with ⟨e, he⟩ | ⟨i, hb, _⟩
  · rw [he] at h; cases h
  · rw [hb] at h
    injection h with h2
    subst h2
    exact ⟨rfl, rfl⟩

/-- Witness for C9 at the end-to-end scenario of the spec. -/
theorem moveIssue_position_always_bottom_witness :
    (builtOf ⟨["7", "p9"], "abc", "ws1", 42, DefaultBaseURL⟩ 7).moveReq.position = "bottom" ∧
    (builtOf ⟨["7", "p9"], "abc", "ws1", 42, DefaultBaseURL⟩ 7).request.body
      = marshalMoveIssueRequest
          (builtOf ⟨["7", "p9"], "abc", "ws1", 42, DefaultBaseURL⟩ 7).moveReq :=
  moveIssue_position_always_bottom ⟨["7", "p9"], "abc", "ws1", 42, DefaultBaseURL⟩
    (builtOf ⟨["7", "p9"], "abc", "ws1", 42, DefaultBaseURL⟩ 7) rfl

/-- C10: for every repository-ID environment value that parses as a
negative signed integer `n`, startup does not terminate fatally (the result
is `some`, not the fatal `none`), and the default repository ID becomes the
value wrapped modulo 2^64, namely 2^64 + n: a nonzero value of at least
2^63. -/
theorem mainDefaultRepositoryID_negative_wraps (s : String) (n : Int)
    (hparse : goAtoi s = some n) (hneg : n < 0) :
    mainDefaultRepositoryID s = some ((2 ^ 64 + n).toNat) ∧
    (2 ^ 64 + n).toNat ≠ 0 ∧
    2 ^ 63 ≤ (2 ^ 64 + n).toNat := by
  have hrange := goAtoi_range s n hparse
  have htrim := goAtoi_some_trim_ne s n hparse
  have hpow64 : (2 : Int) ^ 64 = 18446744073709551616 := by norm_num
  have hpow63n : (2 : Nat) ^ 63 = 9223372036854775808 := by norm_num
  unfold goMinInt goMaxInt at hrange
  refine ⟨?_, ?_, ?_⟩
  · unfold mainDefaultRepositoryID
    rw [if_pos htrim, hparse]
    show some ((n % (2 ^ 64 : Int)).toNat) = some ((2 ^ 64 + n).toNat)
    rw [show n % (2 ^ 64 : Int) = 2 ^ 64 + n from by rw [hpow64]; omega]
  · rw [hpow64]
    omega
  · rw [hpow63n, hpow64]
    omega

/-- Witness for C10 at the environment value -5, the example of the claim:
the default repository ID wraps to 18446744073709551611. -/
theorem mainDefaultRepositoryID_negative_wraps_witness :
    (mainDefaultRepositoryID "-5" = some (((2 : Int) ^ 64 + (-5)).toNat) ∧
      ((2 : Int) ^ 64 + (-5)).toNat ≠ 0 ∧
      2 ^ 63 ≤ ((2 : Int) ^ 64 + (-5)).toNat) ∧
    ((2 : Int) ^ 64 + (-5)).toNat = 18446744073709551611 :=
  ⟨mainDefaultRepositoryID_negative_wraps "-5" (-5) (by decide) (by decide),
    by decide⟩

end Zh
